import Mathlib

set_option maxHeartbeats 1000000

/-!
Shallow embedding of the membership-reconciliation connectors of
bookingcom/aws-security-connectors (package `connectors`): the GuardDuty,
Security Hub and Detective reconcilers and the Prisma CSPM synchronizer.

Remote AWS/REST calls are modelled by a per-run environment record that
scripts each endpoint's response (each endpoint is called at most once per
run by this code), and every operation returns its Go result together with
the ordered list of remote calls it issued.  A Go pointer to a string held
inside response data (`*string` fields of SDK records) is modelled as
`Option String`; a nil record pointer inside a response slice behaves, for
the fields this code reads, like a record whose fields are all nil, and is
modelled that way.  Pointers the code takes of its own local variables
(`&accountID` and the like) are always non-nil and are modelled as plain
`String`.  Error values are modelled by their message strings: both
`fmt.Errorf("ctx: %w", err)` and `errors.Wrap(err, "ctx")` produce the
message `"ctx: " ++ err`.
-/

/-- Outcome of running a Go function: a normal return of a value, an error
return carrying the error's message, or a runtime panic (the nil-pointer
dereferences of claim C10). -/
inductive Outcome (α : Type) where
  | ok : α → Outcome α
  | err : String → Outcome α
  | panicked : Outcome α
deriving Repr, DecidableEq

/-- A GuardDuty membership record (`guardduty.Member`): the one field this
code reads, `RelationshipStatus *string`. -/
structure GDMember where
  relationshipStatus : Option String
deriving Repr, DecidableEq

/-- A GuardDuty invitation (`guardduty.Invitation`): the two fields this code
reads, `AccountId *string` and `InvitationId *string`. -/
structure GDInvitation where
  accountId : Option String
  invitationId : Option String
deriving Repr, DecidableEq

/-- A remote GuardDuty call together with the request fields the source fills
in.  `listDetectorsMaster`/`listDetectorsMember` record which client's
`ListDetectors(nil)` was invoked.  The two accept-call constructors cover the
two snapshots of the source: `guardduty.go` sends `AcceptInvitationInput`
(MasterId), the newer snapshot sends `AcceptAdministratorInvitationInput`
(AdministratorId). -/
inductive GDCall where
  | listDetectorsMaster
  | listDetectorsMember
  | getMembers (detectorId : Option String) (accountIds : List String)
  | createMembers (detectorId : Option String) (accountId : String) (email : String)
  | inviteMembers (detectorId : Option String) (accountIds : List String)
      (disableEmailNotification : Option Bool)
  | listInvitations
  | acceptInvitation (detectorId : Option String) (invitationId : Option String)
      (masterId : String)
  | acceptAdministratorInvitation (detectorId : Option String)
      (invitationId : Option String) (administratorId : String)
deriving Repr, DecidableEq

/-- One run's scripted responses from the two GuardDuty clients.
`masterListDetectors`/`memberListDetectors` are `ListDetectors` on the master
resp. member client (the list holds the `DetectorIds []*string` elements);
`createMembers`, `inviteMembers` and `acceptInvitation` script only the error
result (`some e` = the call fails with message `e`, `none` = success) because
the code ignores those calls' output values.  `acceptInvitation` scripts the
member client's accept endpoint, whichever of the two names the snapshot
uses. -/
structure GDEnv where
  masterListDetectors : Except String (List (Option String))
  getMembers : Except String (List GDMember)
  createMembers : Option String
  inviteMembers : Option String
  listInvitations : Except String (List GDInvitation)
  memberListDetectors : Except String (List (Option String))
  acceptInvitation : Option String

/-- Does a GuardDuty request disable email notification?  Only an
`InviteMembers` request with `DisableEmailNotification` set to true does. -/
def GDCall.disablesEmailNotification : GDCall → Bool
  | .inviteMembers _ _ d => d == some true
  | _ => false

/-- Is this one of the four enrollment/acceptance calls of claims C1/C3
(create-members, invite-members, list-invitations, accept-invitation)? -/
def GDCall.isEnrollOrAccept : GDCall → Bool
  | .createMembers _ _ _ => true
  | .inviteMembers _ _ _ => true
  | .listInvitations => true
  | .acceptInvitation _ _ _ => true
  | .acceptAdministratorInvitation _ _ _ => true
  | _ => false

/-- Is this an accept-invitation call (either snapshot's name)? -/
def GDCall.isAccept : GDCall → Bool
  | .acceptInvitation _ _ _ => true
  | .acceptAdministratorInvitation _ _ _ => true
  | _ => false

/-- Is this an invite-members call? -/
def GDCall.isInvite : GDCall → Bool
  | .inviteMembers _ _ _ => true
  | _ => false

namespace GDv2

/-- `getDetectorID` (newer guardduty snapshot, lines 179-191): looks for a
single detector in the `ListDetectors` response and returns its ID, or an
error embedding the observed count otherwise. -/
def getDetectorID (resp : Except String (List (Option String))) :
    Except String (Option String) :=
  match resp with
  | .error e => .error ("error listing detectors: " ++ e)
  | .ok [d] => .ok d
  | .ok detectorIds =>
      .error (Nat.repr detectorIds.length ++ " detectors found instead of one")

/-- `ifGuardDutyMemberAlreadyEnabled` (newer guardduty snapshot, lines
96-116): queries `GetMembers` for the one account and reports true exactly
when a single record came back whose `RelationshipStatus` is "Enabled";
dereferencing a nil status panics. -/
def ifGuardDutyMemberAlreadyEnabled (env : GDEnv) (detectorID : Option String)
    (memberAccountID : String) : Outcome Bool × List GDCall :=
  let trace := [GDCall.getMembers detectorID [memberAccountID]]
  match env.getMembers with
  | .error e => (.err ("error getting existing members: " ++ e), trace)
  | .ok members =>
      match members with
      | [m] =>
          match m.relationshipStatus with
          | none => (.panicked, trace)
          | some s => (.ok (s == "Enabled"), trace)
      | _ => (.ok false, trace)

/-- `setUpGuardDutyMaster` (newer guardduty snapshot, lines 119-141): creates
the member record, then invites it with email notification disabled; a
creation failure returns before any invite is sent. -/
def setUpGuardDutyMaster (env : GDEnv) (detectorID : Option String)
    (memberAccountID email : String) : Outcome Unit × List GDCall :=
  let createCall := GDCall.createMembers detectorID memberAccountID email
  match env.createMembers with
  | some e => (.err ("error creating member account: " ++ e), [createCall])
  | none =>
      let inviteCall := GDCall.inviteMembers detectorID [memberAccountID] (some true)
      match env.inviteMembers with
      | some e => (.err ("error sending invitation: " ++ e), [createCall, inviteCall])
      | none => (.ok (), [createCall, inviteCall])

/-- The invitation scan of `acceptGuardDutyMemberInvitation` (lines 149-155):
walk the invitations, dereference each `AccountId` (nil panics), and on the
first one equal to the master account ID stop with that invitation's
`InvitationId` pointer; no match leaves the pointer nil. -/
def findInvitationID (invitations : List GDInvitation) (masterAccountID : String) :
    Outcome (Option String) :=
  match invitations with
  | [] => .ok none
  | inv :: rest =>
      match inv.accountId with
      | none => .panicked
      | some a =>
          if a == masterAccountID then .ok inv.invitationId
          else findInvitationID rest masterAccountID

/-- `acceptGuardDutyMemberInvitation` (newer guardduty snapshot, lines
144-176): list invitations, scan for the master's invitation, re-resolve the
member-side detector ID, then accept via
`AcceptAdministratorInvitation{DetectorId, InvitationId, AdministratorId}`. -/
def acceptGuardDutyMemberInvitation (env : GDEnv) (masterAccountID : String) :
    Outcome Unit × List GDCall :=
  match env.listInvitations with
  | .error e =>
      (.err ("error retrieving list of invitations: " ++ e), [GDCall.listInvitations])
  | .ok invitations =>
      match findInvitationID invitations masterAccountID with
      | .panicked => (.panicked, [GDCall.listInvitations])
      | .err e => (.err e, [GDCall.listInvitations])
      | .ok none =>
          (.err "can't find invitation from master account", [GDCall.listInvitations])
      | .ok (some invitationID) =>
          match getDetectorID env.memberListDetectors with
          | .error e =>
              (.err ("can't get detectorID to accept invitation: " ++ e),
                [GDCall.listInvitations, GDCall.listDetectorsMember])
          | .ok detector =>
              let aiCall := GDCall.acceptAdministratorInvitation detector
                (some invitationID) masterAccountID
              match env.acceptInvitation with
              | some e =>
                  (.err ("error accepting invitation: " ++ e),
                    [GDCall.listInvitations, GDCall.listDetectorsMember, aiCall])
              | none =>
                  (.ok (), [GDCall.listInvitations, GDCall.listDetectorsMember, aiCall])

/-- `AddMember` (newer guardduty snapshot, lines 67-92): resolve the master
detector, probe membership (done if already enabled), set up the master side,
then accept the invitation on the member side, wrapping each step's error. -/
def AddMember (env : GDEnv) (accountID accountEmail masterAccountID : String) :
    Outcome Unit × List GDCall :=
  match getDetectorID env.masterListDetectors with
  | .error e =>
      (.err ("can't get detectorID of master account: " ++ e),
        [GDCall.listDetectorsMaster])
  | .ok detectorID =>
      match ifGuardDutyMemberAlreadyEnabled env detectorID accountID with
      | (probe, t1) =>
          let t1 := GDCall.listDetectorsMaster :: t1
          match probe with
          | .panicked => (.panicked, t1)
          | .err e =>
              (.err ("error retrieving information about existing member account: " ++ e),
                t1)
          | .ok true => (.ok (), t1)
          | .ok false =>
              match setUpGuardDutyMaster env detectorID accountID accountEmail with
              | (setup, t2) =>
                  match setup with
                  | .panicked => (.panicked, t1 ++ t2)
                  | .err e => (.err ("error setting up master account: " ++ e), t1 ++ t2)
                  | .ok _ =>
                      match acceptGuardDutyMemberInvitation env masterAccountID with
                      | (acc, t3) =>
                          match acc with
                          | .panicked => (.panicked, t1 ++ t2 ++ t3)
                          | .err e =>
                              (.err ("error accepting invitation in member account: " ++ e),
                                t1 ++ t2 ++ t3)
                          | .ok _ => (.ok (), t1 ++ t2 ++ t3)

end GDv2

namespace GDv1

/-- `getDetectorID` (`connectors/guardduty.go`, lines 178-190): same logic as
the newer snapshot; `errors.Wrap`/`errors.Errorf` produce the same message
strings as `fmt.Errorf`. -/
def getDetectorID (resp : Except String (List (Option String))) :
    Except String (Option String) :=
  match resp with
  | .error e => .error ("error listing detectors: " ++ e)
  | .ok [d] => .ok d
  | .ok detectorIds =>
      .error (Nat.repr detectorIds.length ++ " detectors found instead of one")

/-- `ifGuardDutyMemberAlreadyEnabled` (`connectors/guardduty.go`, lines
95-115). -/
def ifGuardDutyMemberAlreadyEnabled (env : GDEnv) (detectorID : Option String)
    (memberAccountID : String) : Outcome Bool × List GDCall :=
  let trace := [GDCall.getMembers detectorID [memberAccountID]]
  match env.getMembers with
  | .error e => (.err ("error getting existing members: " ++ e), trace)
  | .ok members =>
      match members with
      | [m] =>
          match m.relationshipStatus with
          | none => (.panicked, trace)
          | some s => (.ok (s == "Enabled"), trace)
      | _ => (.ok false, trace)

/-- `setUpGuardDutyMaster` (`connectors/guardduty.go`, lines 118-140). -/
def setUpGuardDutyMaster (env : GDEnv) (detectorID : Option String)
    (memberAccountID email : String) : Outcome Unit × List GDCall :=
  let createCall := GDCall.createMembers detectorID memberAccountID email
  match env.createMembers with
  | some e => (.err ("error creating member account: " ++ e), [createCall])
  | none =>
      let inviteCall := GDCall.inviteMembers detectorID [memberAccountID] (some true)
      match env.inviteMembers with
      | some e => (.err ("error sending invitation: " ++ e), [createCall, inviteCall])
      | none => (.ok (), [createCall, inviteCall])

/-- The invitation scan of `acceptGuardDutyMemberInvitation`
(`connectors/guardduty.go`, lines 148-154). -/
def findInvitationID (invitations : List GDInvitation) (masterAccountID : String) :
    Outcome (Option String) :=
  match invitations with
  | [] => .ok none
  | inv :: rest =>
      match inv.accountId with
      | none => .panicked
      | some a =>
          if a == masterAccountID then .ok inv.invitationId
          else findInvitationID rest masterAccountID

/-- `acceptGuardDutyMemberInvitation` (`connectors/guardduty.go`, lines
143-175): as in the newer snapshot, but the accept request is
`AcceptInvitationInput{DetectorId, InvitationId, MasterId}`. -/
def acceptGuardDutyMemberInvitation (env : GDEnv) (masterAccountID : String) :
    Outcome Unit × List GDCall :=
  match env.listInvitations with
  | .error e =>
      (.err ("error retrieving list of invitations: " ++ e), [GDCall.listInvitations])
  | .ok invitations =>
      match findInvitationID invitations masterAccountID with
      | .panicked => (.panicked, [GDCall.listInvitations])
      | .err e => (.err e, [GDCall.listInvitations])
      | .ok none =>
          (.err "can't find invitation from master account", [GDCall.listInvitations])
      | .ok (some invitationID) =>
          match getDetectorID env.memberListDetectors with
          | .error e =>
              (.err ("can't get detectorID to accept invitation: " ++ e),
                [GDCall.listInvitations, GDCall.listDetectorsMember])
          | .ok detector =>
              let aiCall := GDCall.acceptInvitation detector
                (some invitationID) masterAccountID
              match env.acceptInvitation with
              | some e =>
                  (.err ("error accepting invitation: " ++ e),
                    [GDCall.listInvitations, GDCall.listDetectorsMember, aiCall])
              | none =>
                  (.ok (), [GDCall.listInvitations, GDCall.listDetectorsMember, aiCall])

/-- `AddMember` (`connectors/guardduty.go`, lines 66-91). -/
def AddMember (env : GDEnv) (accountID accountEmail masterAccountID : String) :
    Outcome Unit × List GDCall :=
  match getDetectorID env.masterListDetectors with
  | .error e =>
      (.err ("can't get detectorID of master account: " ++ e),
        [GDCall.listDetectorsMaster])
  | .ok detectorID =>
      match ifGuardDutyMemberAlreadyEnabled env detectorID accountID with
      | (probe, t1) =>
          let t1 := GDCall.listDetectorsMaster :: t1
          match probe with
          | .panicked => (.panicked, t1)
          | .err e =>
              (.err ("error retrieving information about existing member account: " ++ e),
                t1)
          | .ok true => (.ok (), t1)
          | .ok false =>
              match setUpGuardDutyMaster env detectorID accountID accountEmail with
              | (setup, t2) =>
                  match setup with
                  | .panicked => (.panicked, t1 ++ t2)
                  | .err e => (.err ("error setting up master account: " ++ e), t1 ++ t2)
                  | .ok _ =>
                      match acceptGuardDutyMemberInvitation env masterAccountID with
                      | (acc, t3) =>
                          match acc with
                          | .panicked => (.panicked, t1 ++ t2 ++ t3)
                          | .err e =>
                              (.err ("error accepting invitation in member account: " ++ e),
                                t1 ++ t2 ++ t3)
                          | .ok _ => (.ok (), t1 ++ t2 ++ t3)

end GDv1

/-- The renaming under which the two guardduty snapshots correspond:
`AcceptInvitation`/`MasterId` of the older one is
`AcceptAdministratorInvitation`/`AdministratorId` of the newer one; every
other call is its own image. -/
def gdCorr : GDCall → GDCall
  | .acceptInvitation d i m => .acceptAdministratorInvitation d i m
  | c => c

/-- A Security Hub membership record (`securityhub.Member`): the one field
this code reads, `MemberStatus *string`. -/
structure SHMember where
  memberStatus : Option String
deriving Repr, DecidableEq

/-- A Security Hub invitation (`securityhub.Invitation`): the two fields this
code reads, `AccountId *string` and `InvitationId *string`. -/
structure SHInvitation where
  accountId : Option String
  invitationId : Option String
deriving Repr, DecidableEq

/-- A remote Security Hub call with the request fields the source fills in.
The `InviteMembers` request built by `setUpSecurityHubMaster` carries only
`AccountIds`; the Security Hub input type has no email-notification switch. -/
inductive SHCall where
  | getMembers (accountIds : List String)
  | createMembers (accountId : String) (email : String)
  | inviteMembers (accountIds : List String)
  | listInvitations
  | acceptInvitation (invitationId : Option String) (masterId : String)
deriving Repr, DecidableEq

/-- One run's scripted responses from the two Security Hub clients. -/
structure SHEnv where
  getMembers : Except String (List SHMember)
  createMembers : Option String
  inviteMembers : Option String
  listInvitations : Except String (List SHInvitation)
  acceptInvitation : Option String

/-- Does a Security Hub request disable email notification?  No Security Hub
request sent by this code does: the `InviteMembersInput` it constructs (and
the SDK input type it uses) has no email-notification field at all. -/
def SHCall.disablesEmailNotification : SHCall → Bool
  | _ => false

/-- Is this one of the four enrollment/acceptance calls of claims C1/C3? -/
def SHCall.isEnrollOrAccept : SHCall → Bool
  | .createMembers _ _ => true
  | .inviteMembers _ => true
  | .listInvitations => true
  | .acceptInvitation _ _ => true
  | _ => false

/-- Is this an accept-invitation call? -/
def SHCall.isAccept : SHCall → Bool
  | .acceptInvitation _ _ => true
  | _ => false

/-- Is this an invite-members call? -/
def SHCall.isInvite : SHCall → Bool
  | .inviteMembers _ => true
  | _ => false

namespace SH

/-- `ifSecurityHubMemberAlreadyAssociated` (securityhub source, lines 83-102):
true exactly when `GetMembers` returned a single record whose `MemberStatus`
is "Associated"; dereferencing a nil status panics. -/
def ifSecurityHubMemberAlreadyAssociated (env : SHEnv) (memberAccountID : String) :
    Outcome Bool × List SHCall :=
  let trace := [SHCall.getMembers [memberAccountID]]
  match env.getMembers with
  | .error e => (.err ("error getting existing members: " ++ e), trace)
  | .ok members =>
      match members with
      | [m] =>
          match m.memberStatus with
          | none => (.panicked, trace)
          | some s => (.ok (s == "Associated"), trace)
      | _ => (.ok false, trace)

/-- `setUpSecurityHubMaster` (securityhub source, lines 105-125): creates the
member record, then invites it (request carries the account IDs only). -/
def setUpSecurityHubMaster (env : SHEnv) (memberAccountID email : String) :
    Outcome Unit × List SHCall :=
  let createCall := SHCall.createMembers memberAccountID email
  match env.createMembers with
  | some e => (.err ("error creating member account: " ++ e), [createCall])
  | none =>
      let inviteCall := SHCall.inviteMembers [memberAccountID]
      match env.inviteMembers with
      | some e => (.err ("error sending invitation: " ++ e), [createCall, inviteCall])
      | none => (.ok (), [createCall, inviteCall])

/-- The invitation scan of `acceptSecurityHubMemberInvitation` (securityhub
source, lines 133-139). -/
def findInvitationID (invitations : List SHInvitation) (masterAccountID : String) :
    Outcome (Option String) :=
  match invitations with
  | [] => .ok none
  | inv :: rest =>
      match inv.accountId with
      | none => .panicked
      | some a =>
          if a == masterAccountID then .ok inv.invitationId
          else findInvitationID rest masterAccountID

/-- `acceptSecurityHubMemberInvitation` (securityhub source, lines 128-153):
list invitations, scan for the master's invitation, then accept via
`AcceptInvitationInput{InvitationId, MasterId}` (no per-account resource is
re-resolved for Security Hub). -/
def acceptSecurityHubMemberInvitation (env : SHEnv) (masterAccountID : String) :
    Outcome Unit × List SHCall :=
  match env.listInvitations with
  | .error e =>
      (.err ("error retrieving list of invitations: " ++ e), [SHCall.listInvitations])
  | .ok invitations =>
      match findInvitationID invitations masterAccountID with
      | .panicked => (.panicked, [SHCall.listInvitations])
      | .err e => (.err e, [SHCall.listInvitations])
      | .ok none =>
          (.err "can't find invitation from master account", [SHCall.listInvitations])
      | .ok (some invitationID) =>
          let aiCall := SHCall.acceptInvitation (some invitationID) masterAccountID
          match env.acceptInvitation with
          | some e =>
              (.err ("error accepting invitation: " ++ e),
                [SHCall.listInvitations, aiCall])
          | none => (.ok (), [SHCall.listInvitations, aiCall])

/-- `AddMember` (securityhub source, lines 59-79): probe membership (done if
already associated), set up the master side, then accept on the member side,
wrapping each step's error. -/
def AddMember (env : SHEnv) (accountID accountEmail masterAccountID : String) :
    Outcome Unit × List SHCall :=
  match ifSecurityHubMemberAlreadyAssociated env accountID with
  | (probe, t1) =>
      match probe with
      | .panicked => (.panicked, t1)
      | .err e =>
          (.err ("error retrieving information about existing member account: " ++ e),
            t1)
      | .ok true => (.ok (), t1)
      | .ok false =>
          match setUpSecurityHubMaster env accountID accountEmail with
          | (setup, t2) =>
              match setup with
              | .panicked => (.panicked, t1 ++ t2)
              | .err e => (.err ("error setting up master account: " ++ e), t1 ++ t2)
              | .ok _ =>
                  match acceptSecurityHubMemberInvitation env masterAccountID with
                  | (acc, t3) =>
                      match acc with
                      | .panicked => (.panicked, t1 ++ t2 ++ t3)
                      | .err e =>
                          (.err ("error accepting invitation in member account: " ++ e),
                            t1 ++ t2 ++ t3)
                      | .ok _ => (.ok (), t1 ++ t2 ++ t3)

end SH

/-- A Detective membership record (`detective.MemberDetail` as returned by
`GetMembers`): the one field this code reads there, `Status *string`. -/
structure DetMember where
  status : Option String
deriving Repr, DecidableEq

/-- A Detective invitation (`detective.MemberDetail` as returned by
`ListInvitations`): the two fields this code reads, `AccountId *string` and
`GraphArn *string`. -/
structure DetInvitation where
  accountId : Option String
  graphArn : Option String
deriving Repr, DecidableEq

/-- A remote Detective call with the request fields the source fills in.
Detective has no separate invite-members endpoint: `CreateMembers` both
creates and invites. -/
inductive DetCall where
  | listGraphs
  | getMembers (graphArn : Option String) (accountIds : List String)
  | createMembers (graphArn : Option String) (accountId : String) (email : String)
  | listInvitations
  | acceptInvitation (graphArn : Option String)
deriving Repr, DecidableEq

/-- One run's scripted responses from the two Detective clients: `listGraphs`
holds the `GraphList` elements' `Arn *string` fields. -/
structure DetEnv where
  listGraphs : Except String (List (Option String))
  getMembers : Except String (List DetMember)
  createMembers : Option String
  listInvitations : Except String (List DetInvitation)
  acceptInvitation : Option String

/-- Is this one of the enrollment/acceptance calls of claim C1 (Detective has
no invite-members endpoint)? -/
def DetCall.isEnrollOrAccept : DetCall → Bool
  | .createMembers _ _ _ => true
  | .listInvitations => true
  | .acceptInvitation _ => true
  | _ => false

/-- Is this an accept-invitation call? -/
def DetCall.isAccept : DetCall → Bool
  | .acceptInvitation _ => true
  | _ => false

namespace Det

/-- `getGraphARN` (`connectors/detective.go`, lines 154-166): looks for a
single graph in the `ListGraphs` response and returns its ARN, or an error
embedding the observed count otherwise. -/
def getGraphARN (resp : Except String (List (Option String))) :
    Except String (Option String) :=
  match resp with
  | .error e => .error ("error listing graphs: " ++ e)
  | .ok [g] => .ok g
  | .ok graphList =>
      .error (Nat.repr graphList.length ++ " graphs found instead of one")

/-- `ifDetectiveMemberAlreadyEnabled` (`connectors/detective.go`, lines
88-108): true exactly when `GetMembers` returned a single record whose
`Status` is "Enabled"; dereferencing a nil status panics. -/
def ifDetectiveMemberAlreadyEnabled (env : DetEnv) (graphARN : Option String)
    (memberAccountID : String) : Outcome Bool × List DetCall :=
  let trace := [DetCall.getMembers graphARN [memberAccountID]]
  match env.getMembers with
  | .error e => (.err ("error getting existing members: " ++ e), trace)
  | .ok members =>
      match members with
      | [m] =>
          match m.status with
          | none => (.panicked, trace)
          | some s => (.ok (s == "Enabled"), trace)
      | _ => (.ok false, trace)

/-- `setUpDetectiveMaster` (`connectors/detective.go`, lines 111-124): one
`CreateMembers` call; Detective folds the invitation into creation. -/
def setUpDetectiveMaster (env : DetEnv) (graphARN : Option String)
    (memberAccountID email : String) : Outcome Unit × List DetCall :=
  let createCall := DetCall.createMembers graphARN memberAccountID email
  match env.createMembers with
  | some e => (.err ("error creating member account: " ++ e), [createCall])
  | none => (.ok (), [createCall])

/-- The invitation scan of `acceptDetectiveMemberInvitation`
(`connectors/detective.go`, lines 132-138): as for GuardDuty, but the token
kept from the first match is the invitation's `GraphArn`. -/
def findGraphArn (invitations : List DetInvitation) (masterAccountID : String) :
    Outcome (Option String) :=
  match invitations with
  | [] => .ok none
  | inv :: rest =>
      match inv.accountId with
      | none => .panicked
      | some a =>
          if a == masterAccountID then .ok inv.graphArn
          else findGraphArn rest masterAccountID

/-- `acceptDetectiveMemberInvitation` (`connectors/detective.go`, lines
127-151): list invitations, scan for the master's invitation, then accept via
`AcceptInvitationInput{GraphArn}`. -/
def acceptDetectiveMemberInvitation (env : DetEnv) (masterAccountID : String) :
    Outcome Unit × List DetCall :=
  match env.listInvitations with
  | .error e =>
      (.err ("error retrieving list of invitations: " ++ e), [DetCall.listInvitations])
  | .ok invitations =>
      match findGraphArn invitations masterAccountID with
      | .panicked => (.panicked, [DetCall.listInvitations])
      | .err e => (.err e, [DetCall.listInvitations])
      | .ok none =>
          (.err "can't find invitation from master account", [DetCall.listInvitations])
      | .ok (some graphArn) =>
          let aiCall := DetCall.acceptInvitation (some graphArn)
          match env.acceptInvitation with
          | some e =>
              (.err ("error accepting invitation: " ++ e),
                [DetCall.listInvitations, aiCall])
          | none => (.ok (), [DetCall.listInvitations, aiCall])

/-- `AddMember` (`connectors/detective.go`, lines 59-84): resolve the master
graph ARN, probe membership (done if already enabled), set up the master
side, then accept on the member side, wrapping each step's error. -/
def AddMember (env : DetEnv) (accountID accountEmail masterAccountID : String) :
    Outcome Unit × List DetCall :=
  match getGraphARN env.listGraphs with
  | .error e =>
      (.err ("can't get graphARN of master account: " ++ e), [DetCall.listGraphs])
  | .ok graphARN =>
      match ifDetectiveMemberAlreadyEnabled env graphARN accountID with
      | (probe, t1) =>
          let t1 := DetCall.listGraphs :: t1
          match probe with
          | .panicked => (.panicked, t1)
          | .err e =>
              (.err ("error retrieving information about existing member account: " ++ e),
                t1)
          | .ok true => (.ok (), t1)
          | .ok false =>
              match setUpDetectiveMaster env graphARN accountID accountEmail with
              | (setup, t2) =>
                  match setup with
                  | .panicked => (.panicked, t1 ++ t2)
                  | .err e => (.err ("error setting up master account: " ++ e), t1 ++ t2)
                  | .ok _ =>
                      match acceptDetectiveMemberInvitation env masterAccountID with
                      | (acc, t3) =>
                          match acc with
                          | .panicked => (.panicked, t1 ++ t2 ++ t3)
                          | .err e =>
                              (.err ("error accepting invitation in member account: " ++ e),
                                t1 ++ t2 ++ t3)
                          | .ok _ => (.ok (), t1 ++ t2 ++ t3)

end Det

/-- `connectors.prismaCloudAccount`: of a record of the CSPM listing only the
`accountId` field is decoded. -/
structure prismaCloudAccount where
  accountId : String
deriving Repr, DecidableEq

/-- `connectors.awsAccountInfo`: the CSPM AWS cloud-account record, fields in
source order (name, enabled, externalId, roleArn, accountId). -/
structure awsAccountInfo where
  name : String
  enabled : Bool
  externalID : String
  roleArn : String
  accountID : String
deriving Repr, DecidableEq

/-- The result of one CSPM GET as the code consumes it: the transport call
fails, the JSON body fails to decode, or a decoded value.  The JSON layer is
abstracted to the decoded values: the code pipes `api.Call` straight into
`json.Unmarshal`. -/
inductive FetchResult (α : Type) where
  | callErr : String → FetchResult α
  | decodeErr : String → FetchResult α
  | ok : α → FetchResult α
deriving Repr

/-- One run's scripted CSPM responses.  `putAccount`/`postAccount` script the
transport error only (the code ignores those calls' bodies); `json.Marshal`
of a plain struct cannot fail and is not scripted. -/
structure PrismaEnv where
  listAccounts : FetchResult (List prismaCloudAccount)
  getAccount : FetchResult awsAccountInfo
  putAccount : Option String
  postAccount : Option String

/-- A CSPM REST call with method, path and (for writes) the encoded record. -/
inductive PrismaCall where
  | get (path : String)
  | put (path : String) (body : awsAccountInfo)
  | post (path : String) (body : awsAccountInfo)
deriving Repr, DecidableEq

/-- Is this a POST? -/
def PrismaCall.isPost : PrismaCall → Bool
  | .post _ _ => true
  | _ => false

/-- Is this a PUT? -/
def PrismaCall.isPut : PrismaCall → Bool
  | .put _ _ => true
  | _ => false

namespace Prisma

/-- `buildRoleARN` (`connectors/utils.go`, lines 31-33). -/
def buildRoleARN (accountID roleName : String) : String :=
  "arn:aws:iam::" ++ accountID ++ ":role/" ++ roleName

/-- `ifAWSAccountExists` (`connectors/prisma.go`, lines 90-109): GET /cloud,
decode the listing, scan it for the account ID. -/
def ifAWSAccountExists (env : PrismaEnv) (accountID : String) :
    Except String Bool × List PrismaCall :=
  let trace := [PrismaCall.get "/cloud"]
  match env.listAccounts with
  | .callErr e => (.error ("error retrieving list of accounts: " ++ e), trace)
  | .decodeErr e => (.error ("error unmarshalling accounts information: " ++ e), trace)
  | .ok accounts =>
      (.ok (accounts.any (fun acc => acc.accountId == accountID)), trace)

/-- `updateExistingAWSAccount` (`connectors/prisma.go`, lines 113-152): fetch
the full existing record; an empty desired name adopts the existing name;
send a PUT only when the merged desired record differs from the existing
one. -/
def updateExistingAWSAccount (env : PrismaEnv) (acc : awsAccountInfo) :
    Except String Unit × List PrismaCall :=
  let getCall := PrismaCall.get ("/cloud/aws/" ++ acc.accountID)
  match env.getAccount with
  | .callErr e => (.error ("error retrieving existing account details: " ++ e), [getCall])
  | .decodeErr e => (.error ("error unmarshalling account details: " ++ e), [getCall])
  | .ok oldAcc =>
      let acc := if acc.name == "" then { acc with name := oldAcc.name } else acc
      if oldAcc ≠ acc then
        let putCall := PrismaCall.put ("/cloud/aws/" ++ acc.accountID) acc
        match env.putAccount with
        | some e => (.error ("error sending API request: " ++ e), [getCall, putCall])
        | none => (.ok (), [getCall, putCall])
      else (.ok (), [getCall])

/-- `createNewAWSAccount` (`connectors/prisma.go`, lines 156-176): an empty
name is replaced by the account ID, then the record is POSTed. -/
def createNewAWSAccount (env : PrismaEnv) (acc : awsAccountInfo) :
    Except String Unit × List PrismaCall :=
  let acc := if acc.name == "" then { acc with name := acc.accountID } else acc
  let postCall := PrismaCall.post "/cloud/aws/" acc
  match env.postAccount with
  | some e => (.error ("error sending API request: " ++ e), [postCall])
  | none => (.ok (), [postCall])

/-- `AddAWSAccount` (`connectors/prisma.go`, lines 58-86): look for the
account in the listing; update the existing record or create a new one, with
`Enabled` always true and `RoleArn` derived from the account ID and role
name. -/
def AddAWSAccount (env : PrismaEnv) (accountID name externalID roleName : String) :
    Except String Unit × List PrismaCall :=
  match ifAWSAccountExists env accountID with
  | (exists?, t1) =>
      match exists? with
      | .error e => (.error ("error checking for existing account: " ++ e), t1)
      | .ok b =>
          let newAcc : awsAccountInfo :=
            { name := name
              enabled := true
              externalID := externalID
              roleArn := buildRoleARN accountID roleName
              accountID := accountID }
          if b then
            match updateExistingAWSAccount env newAcc with
            | (r, t2) =>
                match r with
                | .error e => (.error ("error updating existing account: " ++ e), t1 ++ t2)
                | .ok _ => (.ok (), t1 ++ t2)
          else
            match createNewAWSAccount env newAcc with
            | (r, t2) =>
                match r with
                | .error e => (.error ("error creating new account: " ++ e), t1 ++ t2)
                | .ok _ => (.ok (), t1 ++ t2)

end Prisma

/-! ### Sample environments (used by the witness and counterexample theorems) -/

/-- A GuardDuty run in which every call succeeds: one master detector, the
member still "Invited", one invitation from the master, one member-side
detector. -/
def gdEnvRun : GDEnv :=
  { masterListDetectors := .ok [some "mock_detector"]
    getMembers := .ok [{ relationshipStatus := some "Invited" }]
    createMembers := none
    inviteMembers := none
    listInvitations :=
      .ok [{ accountId := some "665544332211", invitationId := some "mock_invitation" }]
    memberListDetectors := .ok [some "mock_detector"]
    acceptInvitation := none }

/-- As `gdEnvRun`, but the member is already "Enabled". -/
def gdEnvEnabled : GDEnv :=
  { gdEnvRun with getMembers := .ok [{ relationshipStatus := some "Enabled" }] }

/-- As `gdEnvRun`, but the member side has no detector. -/
def gdEnvNoMemberDetector : GDEnv :=
  { gdEnvRun with memberListDetectors := .ok [] }

/-- As `gdEnvRun`, but the sole membership record has a nil status. -/
def gdEnvNilStatus : GDEnv :=
  { gdEnvRun with getMembers := .ok [{ relationshipStatus := none }] }

/-- A Security Hub run in which every call succeeds: the member still
"Invited", one invitation from the master. -/
def shEnvRun : SHEnv :=
  { getMembers := .ok [{ memberStatus := some "Invited" }]
    createMembers := none
    inviteMembers := none
    listInvitations :=
      .ok [{ accountId := some "665544332211", invitationId := some "mock_invitation" }]
    acceptInvitation := none }

/-- As `shEnvRun`, but the member is already "Associated". -/
def shEnvAssociated : SHEnv :=
  { shEnvRun with getMembers := .ok [{ memberStatus := some "Associated" }] }

/-- As `shEnvRun`, but the sole invitation's account ID is nil. -/
def shEnvNilInvAccount : SHEnv :=
  { shEnvRun with
      listInvitations := .ok [{ accountId := none, invitationId := some "mock_invitation" }] }

/-- A Detective run in which every call succeeds: one graph, the member still
"Invited", one invitation from the master. -/
def detEnvRun : DetEnv :=
  { listGraphs := .ok [some "mock_graph"]
    getMembers := .ok [{ status := some "Invited" }]
    createMembers := none
    listInvitations :=
      .ok [{ accountId := some "665544332211", graphArn := some "mock_graph" }]
    acceptInvitation := none }

/-- As `detEnvRun`, but the member is already "Enabled". -/
def detEnvEnabled : DetEnv :=
  { detEnvRun with getMembers := .ok [{ status := some "Enabled" }] }

/-- As `detEnvRun`, but the sole membership record has a nil status. -/
def detEnvNilStatus : DetEnv :=
  { detEnvRun with getMembers := .ok [{ status := none }] }

/-- A CSPM run in which the account is absent from the listing and the POST
succeeds. -/
def prEnvAbsent : PrismaEnv :=
  { listAccounts := .ok []
    getAccount := .callErr "unused"
    putAccount := none
    postAccount := none }

/-- A CSPM run in which the account exists and the stored record already
equals the desired one (empty provided name). -/
def prEnvEqual : PrismaEnv :=
  { listAccounts := .ok [{ accountId := "011223344556" }]
    getAccount :=
      .ok { name := "existing"
            enabled := true
            externalID := "test_external_id"
            roleArn := "arn:aws:iam::011223344556:role/test_role_name"
            accountID := "011223344556" }
    putAccount := none
    postAccount := none }

/-- As `prEnvEqual`, but the stored record is disabled, so an update is due. -/
def prEnvStale : PrismaEnv :=
  { prEnvEqual with
      getAccount :=
        .ok { name := "existing"
              enabled := false
              externalID := "test_external_id"
              roleArn := "arn:aws:iam::011223344556:role/test_role_name"
              accountID := "011223344556" } }

/-! ### Helper lemmas -/

/-- The GuardDuty prober always issues exactly its one `GetMembers` call. -/
theorem gd2_probe_trace (env : GDEnv) (d : Option String) (a : String) :
    (GDv2.ifGuardDutyMemberAlreadyEnabled env d a).2 = [GDCall.getMembers d [a]] := by
  unfold GDv2.ifGuardDutyMemberAlreadyEnabled
  rcases env.getMembers with e | (_ | ⟨⟨st⟩, _ | ⟨m2, rest⟩⟩)
  · rfl
  · rfl
  · cases st <;> rfl
  · rfl

/-- The Security Hub prober always issues exactly its one `GetMembers` call. -/
theorem sh_probe_trace (env : SHEnv) (a : String) :
    (SH.ifSecurityHubMemberAlreadyAssociated env a).2 = [SHCall.getMembers [a]] := by
  unfold SH.ifSecurityHubMemberAlreadyAssociated
  rcases env.getMembers with e | (_ | ⟨⟨st⟩, _ | ⟨m2, rest⟩⟩)
  · rfl
  · rfl
  · cases st <;> rfl
  · rfl

/-- The Detective prober always issues exactly its one `GetMembers` call. -/
theorem det_probe_trace (env : DetEnv) (g : Option String) (a : String) :
    (Det.ifDetectiveMemberAlreadyEnabled env g a).2 = [DetCall.getMembers g [a]] := by
  unfold Det.ifDetectiveMemberAlreadyEnabled
  rcases env.getMembers with e | (_ | ⟨⟨st⟩, _ | ⟨m2, rest⟩⟩)
  · rfl
  · rfl
  · cases st <;> rfl
  · rfl

/-- The GuardDuty invitation scan skips a prefix of present, non-matching
entries. -/
theorem gd2_find_skip (masterID : String) (pre : List GDInvitation)
    (hpre : ∀ j ∈ pre, j.accountId.isSome ∧ j.accountId ≠ some masterID) :
    ∀ rest : List GDInvitation,
      GDv2.findInvitationID (pre ++ rest) masterID =
        GDv2.findInvitationID rest masterID := by
  induction pre with
  | nil => simp
  | cons j pre ih =>
      intro rest
      obtain ⟨hsome, hne⟩ := hpre j (by simp)
      obtain ⟨aj, haj⟩ := Option.isSome_iff_exists.mp hsome
      have hb : (aj == masterID) = false := by
        rw [beq_eq_false_iff_ne]
        intro h
        exact hne (by rw [haj, h])
      rw [List.cons_append]
      simp only [GDv2.findInvitationID, haj, hb]
      exact ih (fun k hk => hpre k (by simp [hk])) rest

/-- The Security Hub invitation scan skips a prefix of present, non-matching
entries. -/
theorem sh_find_skip (masterID : String) (pre : List SHInvitation)
    (hpre : ∀ j ∈ pre, j.accountId.isSome ∧ j.accountId ≠ some masterID) :
    ∀ rest : List SHInvitation,
      SH.findInvitationID (pre ++ rest) masterID =
        SH.findInvitationID rest masterID := by
  induction pre with
  | nil => simp
  | cons j pre ih =>
      intro rest
      obtain ⟨hsome, hne⟩ := hpre j (by simp)
      obtain ⟨aj, haj⟩ := Option.isSome_iff_exists.mp hsome
      have hb : (aj == masterID) = false := by
        rw [beq_eq_false_iff_ne]
        intro h
        exact hne (by rw [haj, h])
      rw [List.cons_append]
      simp only [SH.findInvitationID, haj, hb]
      exact ih (fun k hk => hpre k (by simp [hk])) rest

/-- The Detective invitation scan skips a prefix of present, non-matching
entries. -/
theorem det_find_skip (masterID : String) (pre : List DetInvitation)
    (hpre : ∀ j ∈ pre, j.accountId.isSome ∧ j.accountId ≠ some masterID) :
    ∀ rest : List DetInvitation,
      Det.findGraphArn (pre ++ rest) masterID =
        Det.findGraphArn rest masterID := by
  induction pre with
  | nil => simp
  | cons j pre ih =>
      intro rest
      obtain ⟨hsome, hne⟩ := hpre j (by simp)
      obtain ⟨aj, haj⟩ := Option.isSome_iff_exists.mp hsome
      have hb : (aj == masterID) = false := by
        rw [beq_eq_false_iff_ne]
        intro h
        exact hne (by rw [haj, h])
      rw [List.cons_append]
      simp only [Det.findGraphArn, haj, hb]
      exact ih (fun k hk => hpre k (by simp [hk])) rest

/-- The CSPM update path issues no POST. -/
theorem prisma_update_no_post (env : PrismaEnv) (acc : awsAccountInfo) :
    (Prisma.updateExistingAWSAccount env acc).2.any PrismaCall.isPost = false := by
  rcases hg : env.getAccount with e | e | old
  · simp [Prisma.updateExistingAWSAccount, hg, PrismaCall.isPost]
  · simp [Prisma.updateExistingAWSAccount, hg, PrismaCall.isPost]
  · rcases hp : env.putAccount with _ | er
    all_goals
      simp only [Prisma.updateExistingAWSAccount, hg, hp]
      split <;> split <;> simp [PrismaCall.isPost]

/-- The CSPM create path issues no PUT. -/
theorem prisma_create_no_put (env : PrismaEnv) (acc : awsAccountInfo) :
    (Prisma.createNewAWSAccount env acc).2.any PrismaCall.isPut = false := by
  rcases hp : env.postAccount with _ | er <;>
    simp [Prisma.createNewAWSAccount, hp, PrismaCall.isPut]

/-- The two snapshots' detector locators agree (same logic, same message
strings). -/
theorem gd_getDetectorID_eq (resp : Except String (List (Option String))) :
    GDv1.getDetectorID resp = GDv2.getDetectorID resp := rfl

/-- The two snapshots' probers agree. -/
theorem gd_probe_eq (env : GDEnv) (d : Option String) (a : String) :
    GDv1.ifGuardDutyMemberAlreadyEnabled env d a =
      GDv2.ifGuardDutyMemberAlreadyEnabled env d a := rfl

/-- The two snapshots' enrollers agree. -/
theorem gd_setUp_eq (env : GDEnv) (d : Option String) (a e : String) :
    GDv1.setUpGuardDutyMaster env d a e = GDv2.setUpGuardDutyMaster env d a e := rfl

/-- The two snapshots' invitation scans agree. -/
theorem gd_find_eq (invs : List GDInvitation) (m : String) :
    GDv1.findInvitationID invs m = GDv2.findInvitationID invs m := by
  induction invs with
  | nil => rfl
  | cons inv rest ih =>
      rcases hacc : inv.accountId with _ | a
      · simp [GDv1.findInvitationID, GDv2.findInvitationID, hacc]
      · simp only [GDv1.findInvitationID, GDv2.findInvitationID, hacc]
        split
        · rfl
        · exact ih

/-- The enroller's trace holds no accept call, so the snapshot correspondence
fixes it. -/
theorem gd2_setUp_trace_corr (env : GDEnv) (d : Option String) (a e : String) :
    (GDv2.setUpGuardDutyMaster env d a e).2.map gdCorr =
      (GDv2.setUpGuardDutyMaster env d a e).2 := by
  rcases hcm : env.createMembers with _ | er
  · rcases him : env.inviteMembers with _ | er2 <;>
      simp [GDv2.setUpGuardDutyMaster, hcm, him, gdCorr]
  · simp [GDv2.setUpGuardDutyMaster, hcm, gdCorr]

/-- The two snapshots' acceptors correspond under `gdCorr`: equal results,
traces related by the renaming. -/
theorem gd_accept_corr (env : GDEnv) (m : String) :
    GDv2.acceptGuardDutyMemberInvitation env m =
      ((GDv1.acceptGuardDutyMemberInvitation env m).1,
        (GDv1.acceptGuardDutyMemberInvitation env m).2.map gdCorr) := by
  unfold GDv1.acceptGuardDutyMemberInvitation GDv2.acceptGuardDutyMemberInvitation
  rcases hli : env.listInvitations with e | invs
  · simp [hli, gdCorr]
  · simp only [hli, ← gd_find_eq]
    rcases hf : GDv1.findInvitationID invs m with tok | e2
    case panicked => simp [gdCorr]
    case err => simp [gdCorr]
    case ok =>
      rcases tok with _ | t
      · simp [gdCorr]
      · rcases hd : GDv1.getDetectorID env.memberListDetectors with er | det
        · rw [gd_getDetectorID_eq] at hd
          simp [hd, gdCorr]
        · rw [gd_getDetectorID_eq] at hd
          rcases hacc : env.acceptInvitation with _ | er2 <;>
            simp [hd, hacc, gdCorr]

/-- The two snapshots' `AddMember`s correspond under `gdCorr`. -/
theorem gd_addMember_corr (env : GDEnv) (a e m : String) :
    GDv2.AddMember env a e m =
      ((GDv1.AddMember env a e m).1, (GDv1.AddMember env a e m).2.map gdCorr) := by
  unfold GDv1.AddMember GDv2.AddMember
  rw [← gd_getDetectorID_eq]
  rcases hd : GDv1.getDetectorID env.masterListDetectors with er | d
  · simp [hd, gdCorr]
  · simp only [hd, ← gd_probe_eq, ← gd_setUp_eq]
    rcases hp : GDv1.ifGuardDutyMemberAlreadyEnabled env d a with ⟨pr, tr⟩
    have htr : tr = [GDCall.getMembers d [a]] := by
      have h := gd2_probe_trace env d a
      rw [← gd_probe_eq, hp] at h
      exact h
    subst htr
    cases pr with
    | panicked => simp [gdCorr]
    | err e2 => simp [gdCorr]
    | ok b =>
        cases b with
        | true => simp [gdCorr]
        | false =>
            rcases hs : GDv1.setUpGuardDutyMaster env d a e with ⟨sr, t2⟩
            have ht2 : t2.map gdCorr = t2 := by
              have h := gd2_setUp_trace_corr env d a e
              rw [← gd_setUp_eq, hs] at h
              exact h
            cases sr with
            | panicked => simp [gdCorr, List.map_append, ht2]
            | err e2 => simp [gdCorr, List.map_append, ht2]
            | ok u =>
                rcases ha : GDv1.acceptGuardDutyMemberInvitation env m with ⟨ar, t3⟩
                have hacc := gd_accept_corr env m
                rw [ha] at hacc
                simp only [hacc]
                cases ar with
                | panicked => simp [gdCorr, List.map_append, ht2]
                | err e2 => simp [gdCorr, List.map_append, ht2]
                | ok u2 => simp [gdCorr, List.map_append, ht2]

/-! ### Claim theorems -/

/-- Claim C1: for each of the three reconcilers (GuardDuty, Security Hub,
Detective) and every input, if the membership probe reports the terminal
status (the sole returned record's status is "Enabled" / "Associated" /
"Enabled" respectively), `AddMember` returns success and issues no
create-members, invite-members, list-invitations or accept-invitation
call. -/
theorem reconciler_terminal_noop :
    (∀ (env : GDEnv) (d : Option String) (a e m : String) (mem : GDMember),
      env.masterListDetectors = .ok [d] →
      env.getMembers = .ok [mem] →
      mem.relationshipStatus = some "Enabled" →
        (GDv2.AddMember env a e m).1 = .ok () ∧
        (GDv2.AddMember env a e m).2.filter GDCall.isEnrollOrAccept = []) ∧
    (∀ (env : SHEnv) (a e m : String) (mem : SHMember),
      env.getMembers = .ok [mem] →
      mem.memberStatus = some "Associated" →
        (SH.AddMember env a e m).1 = .ok () ∧
        (SH.AddMember env a e m).2.filter SHCall.isEnrollOrAccept = []) ∧
    (∀ (env : DetEnv) (g : Option String) (a e m : String) (mem : DetMember),
      env.listGraphs = .ok [g] →
      env.getMembers = .ok [mem] →
      mem.status = some "Enabled" →
        (Det.AddMember env a e m).1 = .ok () ∧
        (Det.AddMember env a e m).2.filter DetCall.isEnrollOrAccept = []) := by
  refine ⟨?_, ?_, ?_⟩
  · intro env d a e m mem h1 h2 h3
    simp [GDv2.AddMember, GDv2.getDetectorID, GDv2.ifGuardDutyMemberAlreadyEnabled,
      h1, h2, h3, GDCall.isEnrollOrAccept, List.filter]
  · intro env a e m mem h2 h3
    simp [SH.AddMember, SH.ifSecurityHubMemberAlreadyAssociated,
      h2, h3, SHCall.isEnrollOrAccept, List.filter]
  · intro env g a e m mem h1 h2 h3
    simp [Det.AddMember, Det.getGraphARN, Det.ifDetectiveMemberAlreadyEnabled,
      h1, h2, h3, DetCall.isEnrollOrAccept, List.filter]

/-- Witness for C1: concrete runs whose member is already connected in each
service. -/
theorem reconciler_terminal_noop_witness :
    ((GDv2.AddMember gdEnvEnabled "112233445566" "email@example.com" "665544332211").1 =
        .ok () ∧
      (GDv2.AddMember gdEnvEnabled "112233445566" "email@example.com"
          "665544332211").2.filter GDCall.isEnrollOrAccept = []) ∧
    ((SH.AddMember shEnvAssociated "112233445566" "email@example.com" "665544332211").1 =
        .ok () ∧
      (SH.AddMember shEnvAssociated "112233445566" "email@example.com"
          "665544332211").2.filter SHCall.isEnrollOrAccept = []) ∧
    ((Det.AddMember detEnvEnabled "112233445566" "email@example.com" "665544332211").1 =
        .ok () ∧
      (Det.AddMember detEnvEnabled "112233445566" "email@example.com"
          "665544332211").2.filter DetCall.isEnrollOrAccept = []) :=
  ⟨reconciler_terminal_noop.1 gdEnvEnabled (some "mock_detector") "112233445566"
      "email@example.com" "665544332211" ⟨some "Enabled"⟩ rfl rfl rfl,
    reconciler_terminal_noop.2.1 shEnvAssociated "112233445566" "email@example.com"
      "665544332211" ⟨some "Associated"⟩ rfl rfl,
    reconciler_terminal_noop.2.2 detEnvEnabled (some "mock_graph") "112233445566"
      "email@example.com" "665544332211" ⟨some "Enabled"⟩ rfl rfl rfl⟩

/-- Claim C4: each Resource Locator returns the sole identifier exactly when
the listing has one element; any other length n yields an error whose message
embeds n, and a failure of the listing call itself is propagated wrapped. -/
theorem resourceLocator_exactly_one :
    (∀ e : String,
      Det.getGraphARN (.error e) = .error ("error listing graphs: " ++ e)) ∧
    (∀ g : Option String, Det.getGraphARN (.ok [g]) = .ok g) ∧
    (∀ gl : List (Option String), gl.length ≠ 1 →
      Det.getGraphARN (.ok gl) =
        .error (Nat.repr gl.length ++ " graphs found instead of one")) ∧
    (∀ e : String,
      GDv2.getDetectorID (.error e) = .error ("error listing detectors: " ++ e)) ∧
    (∀ d : Option String, GDv2.getDetectorID (.ok [d]) = .ok d) ∧
    (∀ ds : List (Option String), ds.length ≠ 1 →
      GDv2.getDetectorID (.ok ds) =
        .error (Nat.repr ds.length ++ " detectors found instead of one")) := by
  refine ⟨fun e => rfl, fun g => rfl, ?_, fun e => rfl, fun d => rfl, ?_⟩
  · intro gl h
    match gl, h with
    | [], _ => rfl
    | [g], h => exact absurd rfl h
    | g1 :: g2 :: t, _ => rfl
  · intro ds h
    match ds, h with
    | [], _ => rfl
    | [d], h => exact absurd rfl h
    | d1 :: d2 :: t, _ => rfl

/-- Witness for C4: the zero- and two-element listings. -/
theorem resourceLocator_exactly_one_witness :
    Det.getGraphARN (.ok []) = .error "0 graphs found instead of one" ∧
    GDv2.getDetectorID (.ok [some "a", some "b"]) =
      .error "2 detectors found instead of one" := by
  constructor
  · have h := resourceLocator_exactly_one.2.2.1 [] (by decide)
    simpa using h
  · have h := resourceLocator_exactly_one.2.2.2.2.2 [some "a", some "b"] (by decide)
    simpa using h

/-- Claim C6: for GuardDuty and Security Hub, a failing create-members call
makes the Enroller return the wrapped creation error with no invite-members
call attempted; a failing invite-members call after a successful creation
returns the wrapped invitation error, the create-members call having been
issued (and not rolled back — no further call follows). -/
theorem enroller_failure_semantics :
    (∀ (env : GDEnv) (d : Option String) (a e er : String),
      env.createMembers = some er →
        GDv2.setUpGuardDutyMaster env d a e =
          (.err ("error creating member account: " ++ er),
            [GDCall.createMembers d a e])) ∧
    (∀ (env : GDEnv) (d : Option String) (a e er : String),
      env.createMembers = none → env.inviteMembers = some er →
        GDv2.setUpGuardDutyMaster env d a e =
          (.err ("error sending invitation: " ++ er),
            [GDCall.createMembers d a e,
              GDCall.inviteMembers d [a] (some true)])) ∧
    (∀ (env : SHEnv) (a e er : String),
      env.createMembers = some er →
        SH.setUpSecurityHubMaster env a e =
          (.err ("error creating member account: " ++ er),
            [SHCall.createMembers a e])) ∧
    (∀ (env : SHEnv) (a e er : String),
      env.createMembers = none → env.inviteMembers = some er →
        SH.setUpSecurityHubMaster env a e =
          (.err ("error sending invitation: " ++ er),
            [SHCall.createMembers a e, SHCall.inviteMembers [a]])) := by
  refine ⟨?_, ?_, ?_, ?_⟩
  · intro env d a e er h
    simp [GDv2.setUpGuardDutyMaster, h]
  · intro env d a e er h1 h2
    simp [GDv2.setUpGuardDutyMaster, h1, h2]
  · intro env a e er h
    simp [SH.setUpSecurityHubMaster, h]
  · intro env a e er h1 h2
    simp [SH.setUpSecurityHubMaster, h1, h2]

/-- Witness for C6: concrete failing creations and invitations. -/
theorem enroller_failure_semantics_witness :
    GDv2.setUpGuardDutyMaster { gdEnvRun with createMembers := some "mock err" }
        (some "mock_detector") "112233445566" "email@example.com" =
      (.err "error creating member account: mock err",
        [GDCall.createMembers (some "mock_detector") "112233445566" "email@example.com"]) ∧
    SH.setUpSecurityHubMaster { shEnvRun with inviteMembers := some "mock err" }
        "112233445566" "email@example.com" =
      (.err "error sending invitation: mock err",
        [SHCall.createMembers "112233445566" "email@example.com",
          SHCall.inviteMembers ["112233445566"]]) :=
  ⟨enroller_failure_semantics.1 { gdEnvRun with createMembers := some "mock err" }
      (some "mock_detector") "112233445566" "email@example.com" "mock err" rfl,
    enroller_failure_semantics.2.2.2 { shEnvRun with inviteMembers := some "mock err" }
      "112233445566" "email@example.com" "mock err" rfl rfl⟩

/-- Claim C2: on a successful get-members query whose records carry a status,
each Prober reports Terminal exactly when the query returned one record with
the service's terminal status ("Enabled" for GuardDuty and Detective,
"Associated" for Security Hub), reports NotTerminal without error on every
other such outcome (zero records, one record with a different status, more
than one record), and returns an error exactly when the query itself fails.
(A sole record whose status pointer is nil panics instead — claim C10.) -/
theorem prober_terminal_iff :
    (∀ (env : GDEnv) (d : Option String) (a : String),
      (∀ e, env.getMembers = .error e →
        (GDv2.ifGuardDutyMemberAlreadyEnabled env d a).1 =
          .err ("error getting existing members: " ++ e)) ∧
      (∀ ms, env.getMembers = .ok ms →
        (∀ mem ∈ ms, mem.relationshipStatus.isSome) →
        (((GDv2.ifGuardDutyMemberAlreadyEnabled env d a).1 = .ok true ↔
            ms = [⟨some "Enabled"⟩]) ∧
          ((GDv2.ifGuardDutyMemberAlreadyEnabled env d a).1 = .ok false ↔
            ms ≠ [⟨some "Enabled"⟩])))) ∧
    (∀ (env : SHEnv) (a : String),
      (∀ e, env.getMembers = .error e →
        (SH.ifSecurityHubMemberAlreadyAssociated env a).1 =
          .err ("error getting existing members: " ++ e)) ∧
      (∀ ms, env.getMembers = .ok ms →
        (∀ mem ∈ ms, mem.memberStatus.isSome) →
        (((SH.ifSecurityHubMemberAlreadyAssociated env a).1 = .ok true ↔
            ms = [⟨some "Associated"⟩]) ∧
          ((SH.ifSecurityHubMemberAlreadyAssociated env a).1 = .ok false ↔
            ms ≠ [⟨some "Associated"⟩])))) ∧
    (∀ (env : DetEnv) (g : Option String) (a : String),
      (∀ e, env.getMembers = .error e →
        (Det.ifDetectiveMemberAlreadyEnabled env g a).1 =
          .err ("error getting existing members: " ++ e)) ∧
      (∀ ms, env.getMembers = .ok ms →
        (∀ mem ∈ ms, mem.status.isSome) →
        (((Det.ifDetectiveMemberAlreadyEnabled env g a).1 = .ok true ↔
            ms = [⟨some "Enabled"⟩]) ∧
          ((Det.ifDetectiveMemberAlreadyEnabled env g a).1 = .ok false ↔
            ms ≠ [⟨some "Enabled"⟩])))) := by
  refine ⟨fun env d a => ⟨?_, ?_⟩, fun env a => ⟨?_, ?_⟩, fun env g a => ⟨?_, ?_⟩⟩
  · intro e he
    simp [GDv2.ifGuardDutyMemberAlreadyEnabled, he]
  · intro ms hms hpres
    match ms, hpres with
    | [], _ => simp [GDv2.ifGuardDutyMemberAlreadyEnabled, hms]
    | [mem], hpres =>
        obtain ⟨st⟩ := mem
        obtain ⟨s, hs⟩ := Option.isSome_iff_exists.mp (hpres ⟨st⟩ (by simp))
        simp only at hs
        subst hs
        by_cases hs2 : s = "Enabled" <;>
          simp [GDv2.ifGuardDutyMemberAlreadyEnabled, hms, hs2, GDMember.mk.injEq]
    | mem :: mem2 :: rest, _ => simp [GDv2.ifGuardDutyMemberAlreadyEnabled, hms]
  · intro e he
    simp [SH.ifSecurityHubMemberAlreadyAssociated, he]
  · intro ms hms hpres
    match ms, hpres with
    | [], _ => simp [SH.ifSecurityHubMemberAlreadyAssociated, hms]
    | [mem], hpres =>
        obtain ⟨st⟩ := mem
        obtain ⟨s, hs⟩ := Option.isSome_iff_exists.mp (hpres ⟨st⟩ (by simp))
        simp only at hs
        subst hs
        by_cases hs2 : s = "Associated" <;>
          simp [SH.ifSecurityHubMemberAlreadyAssociated, hms, hs2, SHMember.mk.injEq]
    | mem :: mem2 :: rest, _ => simp [SH.ifSecurityHubMemberAlreadyAssociated, hms]
  · intro e he
    simp [Det.ifDetectiveMemberAlreadyEnabled, he]
  · intro ms hms hpres
    match ms, hpres with
    | [], _ => simp [Det.ifDetectiveMemberAlreadyEnabled, hms]
    | [mem], hpres =>
        obtain ⟨st⟩ := mem
        obtain ⟨s, hs⟩ := Option.isSome_iff_exists.mp (hpres ⟨st⟩ (by simp))
        simp only at hs
        subst hs
        by_cases hs2 : s = "Enabled" <;>
          simp [Det.ifDetectiveMemberAlreadyEnabled, hms, hs2, DetMember.mk.injEq]
    | mem :: mem2 :: rest, _ => simp [Det.ifDetectiveMemberAlreadyEnabled, hms]

/-- Witness for C2: a failing query, a terminal record and a non-terminal
record at concrete inputs. -/
theorem prober_terminal_iff_witness :
    (GDv2.ifGuardDutyMemberAlreadyEnabled { gdEnvRun with getMembers := .error "mock err" }
        (some "mock_detector") "112233445566").1 =
      .err "error getting existing members: mock err" ∧
    (GDv2.ifGuardDutyMemberAlreadyEnabled gdEnvEnabled (some "mock_detector")
        "112233445566").1 = .ok true ∧
    (SH.ifSecurityHubMemberAlreadyAssociated shEnvAssociated "112233445566").1 =
      .ok true ∧
    (Det.ifDetectiveMemberAlreadyEnabled detEnvRun (some "mock_graph")
        "112233445566").1 = .ok false :=
  ⟨(prober_terminal_iff.1 { gdEnvRun with getMembers := .error "mock err" }
        (some "mock_detector") "112233445566").1 "mock err" rfl,
    ((prober_terminal_iff.1 gdEnvEnabled (some "mock_detector") "112233445566").2
        [⟨some "Enabled"⟩] rfl (by decide)).1.mpr rfl,
    ((prober_terminal_iff.2.1 shEnvAssociated "112233445566").2
        [⟨some "Associated"⟩] rfl (by decide)).1.mpr rfl,
    ((prober_terminal_iff.2.2 detEnvRun (some "mock_graph") "112233445566").2
        [⟨some "Invited"⟩] rfl (by decide)).2.mpr (by decide)⟩

/-- Claim C3: for GuardDuty and Security Hub, when the probe reports
non-terminal and every subsequent remote call succeeds (for GuardDuty this
includes each detector listing returning its one detector), and the
invitation listing contains an entry from the master account (its fields
present, any earlier entries not from the master), `AddMember` succeeds and
`CreateMembers`, `InviteMembers`, `ListInvitations`, `AcceptInvitation` are
each issued exactly once, in that order. -/
theorem addMember_full_run_in_order :
    (∀ (env : GDEnv) (d d2 : Option String) (a e m tok : String)
      (pre post : List GDInvitation) (inv : GDInvitation),
      env.masterListDetectors = .ok [d] →
      (GDv2.ifGuardDutyMemberAlreadyEnabled env d a).1 = .ok false →
      env.createMembers = none →
      env.inviteMembers = none →
      env.listInvitations = .ok (pre ++ inv :: post) →
      (∀ j ∈ pre, j.accountId.isSome ∧ j.accountId ≠ some m) →
      inv.accountId = some m →
      inv.invitationId = some tok →
      env.memberListDetectors = .ok [d2] →
      env.acceptInvitation = none →
        (GDv2.AddMember env a e m).1 = .ok () ∧
        (GDv2.AddMember env a e m).2.filter GDCall.isEnrollOrAccept =
          [GDCall.createMembers d a e,
            GDCall.inviteMembers d [a] (some true),
            GDCall.listInvitations,
            GDCall.acceptAdministratorInvitation d2 (some tok) m]) ∧
    (∀ (env : SHEnv) (a e m tok : String)
      (pre post : List SHInvitation) (inv : SHInvitation),
      (SH.ifSecurityHubMemberAlreadyAssociated env a).1 = .ok false →
      env.createMembers = none →
      env.inviteMembers = none →
      env.listInvitations = .ok (pre ++ inv :: post) →
      (∀ j ∈ pre, j.accountId.isSome ∧ j.accountId ≠ some m) →
      inv.accountId = some m →
      inv.invitationId = some tok →
      env.acceptInvitation = none →
        (SH.AddMember env a e m).1 = .ok () ∧
        (SH.AddMember env a e m).2.filter SHCall.isEnrollOrAccept =
          [SHCall.createMembers a e,
            SHCall.inviteMembers [a],
            SHCall.listInvitations,
            SHCall.acceptInvitation (some tok) m]) := by
  constructor
  · intro env d d2 a e m tok pre post inv h1 h2 h3 h4 h5 h6 h7 h8 h9 h10
    have hpair : GDv2.ifGuardDutyMemberAlreadyEnabled env d a =
        (.ok false, [GDCall.getMembers d [a]]) :=
      Prod.ext h2 (gd2_probe_trace env d a)
    have hfind : GDv2.findInvitationID (pre ++ inv :: post) m = .ok (some tok) := by
      rw [gd2_find_skip m pre h6]
      simp [GDv2.findInvitationID, h7, h8]
    simp [GDv2.AddMember, GDv2.getDetectorID, hpair, GDv2.setUpGuardDutyMaster,
      h1, h3, h4, GDv2.acceptGuardDutyMemberInvitation, h5, hfind, h9, h10,
      GDCall.isEnrollOrAccept, List.filter]
  · intro env a e m tok pre post inv h2 h3 h4 h5 h6 h7 h8 h10
    have hpair : SH.ifSecurityHubMemberAlreadyAssociated env a =
        (.ok false, [SHCall.getMembers [a]]) :=
      Prod.ext h2 (sh_probe_trace env a)
    have hfind : SH.findInvitationID (pre ++ inv :: post) m = .ok (some tok) := by
      rw [sh_find_skip m pre h6]
      simp [SH.findInvitationID, h7, h8]
    simp [SH.AddMember, hpair, SH.setUpSecurityHubMaster, h3, h4,
      SH.acceptSecurityHubMemberInvitation, h5, hfind, h10,
      SHCall.isEnrollOrAccept, List.filter]

/-- Witness for C3: the concrete all-successful runs. -/
theorem addMember_full_run_in_order_witness :
    ((GDv2.AddMember gdEnvRun "112233445566" "email@example.com" "665544332211").1 =
        .ok () ∧
      (GDv2.AddMember gdEnvRun "112233445566" "email@example.com"
          "665544332211").2.filter GDCall.isEnrollOrAccept =
        [GDCall.createMembers (some "mock_detector") "112233445566" "email@example.com",
          GDCall.inviteMembers (some "mock_detector") ["112233445566"] (some true),
          GDCall.listInvitations,
          GDCall.acceptAdministratorInvitation (some "mock_detector")
            (some "mock_invitation") "665544332211"]) ∧
    ((SH.AddMember shEnvRun "112233445566" "email@example.com" "665544332211").1 =
        .ok () ∧
      (SH.AddMember shEnvRun "112233445566" "email@example.com"
          "665544332211").2.filter SHCall.isEnrollOrAccept =
        [SHCall.createMembers "112233445566" "email@example.com",
          SHCall.inviteMembers ["112233445566"],
          SHCall.listInvitations,
          SHCall.acceptInvitation (some "mock_invitation") "665544332211"]) :=
  ⟨addMember_full_run_in_order.1 gdEnvRun (some "mock_detector") (some "mock_detector")
      "112233445566" "email@example.com" "665544332211" "mock_invitation" [] []
      ⟨some "665544332211", some "mock_invitation"⟩ rfl (by decide) rfl rfl rfl
      (by decide) rfl rfl rfl rfl,
    addMember_full_run_in_order.2 shEnvRun "112233445566" "email@example.com"
      "665544332211" "mock_invitation" [] []
      ⟨some "665544332211", some "mock_invitation"⟩ (by decide) rfl rfl rfl
      (by decide) rfl rfl rfl⟩

/-- Counterexample to claim C5 as stated: the GuardDuty acceptor is given an
invitation list with a matching invitation (account ID equal to the master's,
token present), yet issues no accept call — the member-side detector listing
returns zero detectors, so it fails before accepting. -/
theorem acceptor_first_match_cex :
    (∃ inv ∈ ([⟨some "665544332211", some "mock_invitation"⟩] : List GDInvitation),
        inv.accountId = some "665544332211") ∧
    gdEnvNoMemberDetector.listInvitations =
      .ok [⟨some "665544332211", some "mock_invitation"⟩] ∧
    (GDv2.acceptGuardDutyMemberInvitation gdEnvNoMemberDetector "665544332211").1 =
      .err "can't get detectorID to accept invitation: 0 detectors found instead of one" ∧
    (GDv2.acceptGuardDutyMemberInvitation gdEnvNoMemberDetector
        "665544332211").2.filter GDCall.isAccept = [] := by
  refine ⟨⟨⟨some "665544332211", some "mock_invitation"⟩, by simp⟩, rfl, by decide, by decide⟩

/-- Claim C5, amended: for every invitation list whose scanned account-ID
fields are present, each Acceptor matches only on exact account-ID equality
and uses the first match in scan order; with zero matches it fails with the
invitation-not-found error and no accept call; a first match with an absent
token also fails that way with no accept call; a first match with token
present leads to exactly one accept call carrying that token — for GuardDuty
only after the member-side detector resolution succeeds, whose failure is
returned with no accept call issued. -/
theorem acceptor_first_match_amended :
    (∀ (env : SHEnv) (m : String) (invs : List SHInvitation),
      env.listInvitations = .ok invs →
      (∀ j ∈ invs, j.accountId.isSome ∧ j.accountId ≠ some m) →
        (SH.acceptSecurityHubMemberInvitation env m).1 =
          .err "can't find invitation from master account" ∧
        (SH.acceptSecurityHubMemberInvitation env m).2.filter SHCall.isAccept = []) ∧
    (∀ (env : SHEnv) (m : String) (pre post : List SHInvitation) (inv : SHInvitation),
      env.listInvitations = .ok (pre ++ inv :: post) →
      (∀ j ∈ pre, j.accountId.isSome ∧ j.accountId ≠ some m) →
      inv.accountId = some m →
      inv.invitationId = none →
        (SH.acceptSecurityHubMemberInvitation env m).1 =
          .err "can't find invitation from master account" ∧
        (SH.acceptSecurityHubMemberInvitation env m).2.filter SHCall.isAccept = []) ∧
    (∀ (env : SHEnv) (m tok : String) (pre post : List SHInvitation)
      (inv : SHInvitation),
      env.listInvitations = .ok (pre ++ inv :: post) →
      (∀ j ∈ pre, j.accountId.isSome ∧ j.accountId ≠ some m) →
      inv.accountId = some m →
      inv.invitationId = some tok →
        (SH.acceptSecurityHubMemberInvitation env m).2.filter SHCall.isAccept =
          [SHCall.acceptInvitation (some tok) m]) ∧
    (∀ (env : DetEnv) (m : String) (invs : List DetInvitation),
      env.listInvitations = .ok invs →
      (∀ j ∈ invs, j.accountId.isSome ∧ j.accountId ≠ some m) →
        (Det.acceptDetectiveMemberInvitation env m).1 =
          .err "can't find invitation from master account" ∧
        (Det.acceptDetectiveMemberInvitation env m).2.filter DetCall.isAccept = []) ∧
    (∀ (env : DetEnv) (m : String) (pre post : List DetInvitation)
      (inv : DetInvitation),
      env.listInvitations = .ok (pre ++ inv :: post) →
      (∀ j ∈ pre, j.accountId.isSome ∧ j.accountId ≠ some m) →
      inv.accountId = some m →
      inv.graphArn = none →
        (Det.acceptDetectiveMemberInvitation env m).1 =
          .err "can't find invitation from master account" ∧
        (Det.acceptDetectiveMemberInvitation env m).2.filter DetCall.isAccept = []) ∧
    (∀ (env : DetEnv) (m tok : String) (pre post : List DetInvitation)
      (inv : DetInvitation),
      env.listInvitations = .ok (pre ++ inv :: post) →
      (∀ j ∈ pre, j.accountId.isSome ∧ j.accountId ≠ some m) →
      inv.accountId = some m →
      inv.graphArn = some tok →
        (Det.acceptDetectiveMemberInvitation env m).2.filter DetCall.isAccept =
          [DetCall.acceptInvitation (some tok)]) ∧
    (∀ (env : GDEnv) (m : String) (invs : List GDInvitation),
      env.listInvitations = .ok invs →
      (∀ j ∈ invs, j.accountId.isSome ∧ j.accountId ≠ some m) →
        (GDv2.acceptGuardDutyMemberInvitation env m).1 =
          .err "can't find invitation from master account" ∧
        (GDv2.acceptGuardDutyMemberInvitation env m).2.filter GDCall.isAccept = []) ∧
    (∀ (env : GDEnv) (m : String) (pre post : List GDInvitation) (inv : GDInvitation),
      env.listInvitations = .ok (pre ++ inv :: post) →
      (∀ j ∈ pre, j.accountId.isSome ∧ j.accountId ≠ some m) →
      inv.accountId = some m →
      inv.invitationId = none →
        (GDv2.acceptGuardDutyMemberInvitation env m).1 =
          .err "can't find invitation from master account" ∧
        (GDv2.acceptGuardDutyMemberInvitation env m).2.filter GDCall.isAccept = []) ∧
    (∀ (env : GDEnv) (m tok : String) (d2 : Option String)
      (pre post : List GDInvitation) (inv : GDInvitation),
      env.listInvitations = .ok (pre ++ inv :: post) →
      (∀ j ∈ pre, j.accountId.isSome ∧ j.accountId ≠ some m) →
      inv.accountId = some m →
      inv.invitationId = some tok →
      env.memberListDetectors = .ok [d2] →
        (GDv2.acceptGuardDutyMemberInvitation env m).2.filter GDCall.isAccept =
          [GDCall.acceptAdministratorInvitation d2 (some tok) m]) ∧
    (∀ (env : GDEnv) (m tok er : String)
      (pre post : List GDInvitation) (inv : GDInvitation),
      env.listInvitations = .ok (pre ++ inv :: post) →
      (∀ j ∈ pre, j.accountId.isSome ∧ j.accountId ≠ some m) →
      inv.accountId = some m →
      inv.invitationId = some tok →
      GDv2.getDetectorID env.memberListDetectors = .error er →
        (GDv2.acceptGuardDutyMemberInvitation env m).1 =
          .err ("can't get detectorID to accept invitation: " ++ er) ∧
        (GDv2.acceptGuardDutyMemberInvitation env m).2.filter GDCall.isAccept = []) := by
  refine ⟨?_, ?_, ?_, ?_, ?_, ?_, ?_, ?_, ?_, ?_⟩
  · intro env m invs h1 h2
    have hfind : SH.findInvitationID invs m = .ok none := by
      have h := sh_find_skip m invs h2 []
      rw [List.append_nil] at h
      simpa [SH.findInvitationID] using h
    simp [SH.acceptSecurityHubMemberInvitation, h1, hfind, SHCall.isAccept, List.filter]
  · intro env m pre post inv h1 h2 h3 h4
    have hfind : SH.findInvitationID (pre ++ inv :: post) m = .ok none := by
      rw [sh_find_skip m pre h2]
      simp [SH.findInvitationID, h3, h4]
    simp [SH.acceptSecurityHubMemberInvitation, h1, hfind, SHCall.isAccept, List.filter]
  · intro env m tok pre post inv h1 h2 h3 h4
    have hfind : SH.findInvitationID (pre ++ inv :: post) m = .ok (some tok) := by
      rw [sh_find_skip m pre h2]
      simp [SH.findInvitationID, h3, h4]
    rcases hacc : env.acceptInvitation with _ | er <;>
      simp [SH.acceptSecurityHubMemberInvitation, h1, hfind, hacc,
        SHCall.isAccept, List.filter]
  · intro env m invs h1 h2
    have hfind : Det.findGraphArn invs m = .ok none := by
      have h := det_find_skip m invs h2 []
      rw [List.append_nil] at h
      simpa [Det.findGraphArn] using h
    simp [Det.acceptDetectiveMemberInvitation, h1, hfind, DetCall.isAccept, List.filter]
  · intro env m pre post inv h1 h2 h3 h4
    have hfind : Det.findGraphArn (pre ++ inv :: post) m = .ok none := by
      rw [det_find_skip m pre h2]
      simp [Det.findGraphArn, h3, h4]
    simp [Det.acceptDetectiveMemberInvitation, h1, hfind, DetCall.isAccept, List.filter]
  · intro env m tok pre post inv h1 h2 h3 h4
    have hfind : Det.findGraphArn (pre ++ inv :: post) m = .ok (some tok) := by
      rw [det_find_skip m pre h2]
      simp [Det.findGraphArn, h3, h4]
    rcases hacc : env.acceptInvitation with _ | er <;>
      simp [Det.acceptDetectiveMemberInvitation, h1, hfind, hacc,
        DetCall.isAccept, List.filter]
  · intro env m invs h1 h2
    have hfind : GDv2.findInvitationID invs m = .ok none := by
      have h := gd2_find_skip m invs h2 []
      rw [List.append_nil] at h
      simpa [GDv2.findInvitationID] using h
    simp [GDv2.acceptGuardDutyMemberInvitation, h1, hfind, GDCall.isAccept, List.filter]
  · intro env m pre post inv h1 h2 h3 h4
    have hfind : GDv2.findInvitationID (pre ++ inv :: post) m = .ok none := by
      rw [gd2_find_skip m pre h2]
      simp [GDv2.findInvitationID, h3, h4]
    simp [GDv2.acceptGuardDutyMemberInvitation, h1, hfind, GDCall.isAccept, List.filter]
  · intro env m tok d2 pre post inv h1 h2 h3 h4 h5
    have hfind : GDv2.findInvitationID (pre ++ inv :: post) m = .ok (some tok) := by
      rw [gd2_find_skip m pre h2]
      simp [GDv2.findInvitationID, h3, h4]
    rcases hacc : env.acceptInvitation with _ | er <;>
      simp [GDv2.acceptGuardDutyMemberInvitation, GDv2.getDetectorID, h1, hfind, h5,
        hacc, GDCall.isAccept, List.filter]
  · intro env m tok er pre post inv h1 h2 h3 h4 h5
    have hfind : GDv2.findInvitationID (pre ++ inv :: post) m = .ok (some tok) := by
      rw [gd2_find_skip m pre h2]
      simp [GDv2.findInvitationID, h3, h4]
    simp [GDv2.acceptGuardDutyMemberInvitation, h1, hfind, h5,
      GDCall.isAccept, List.filter]

/-- Witness for C5 (amended): a no-match list, a matching list accepted, and a
matching Detective list accepted, at concrete inputs. -/
theorem acceptor_first_match_amended_witness :
    ((SH.acceptSecurityHubMemberInvitation
          { shEnvRun with listInvitations := .ok [] } "665544332211").1 =
        .err "can't find invitation from master account" ∧
      (SH.acceptSecurityHubMemberInvitation
          { shEnvRun with listInvitations := .ok [] }
          "665544332211").2.filter SHCall.isAccept = []) ∧
    (SH.acceptSecurityHubMemberInvitation shEnvRun "665544332211").2.filter
        SHCall.isAccept =
      [SHCall.acceptInvitation (some "mock_invitation") "665544332211"] ∧
    (Det.acceptDetectiveMemberInvitation detEnvRun "665544332211").2.filter
        DetCall.isAccept =
      [DetCall.acceptInvitation (some "mock_graph")] :=
  ⟨acceptor_first_match_amended.1 { shEnvRun with listInvitations := .ok [] }
      "665544332211" [] rfl (by simp),
    acceptor_first_match_amended.2.2.1 shEnvRun "665544332211" "mock_invitation" [] []
      ⟨some "665544332211", some "mock_invitation"⟩ rfl (by simp) rfl rfl,
    acceptor_first_match_amended.2.2.2.2.2.1 detEnvRun "665544332211" "mock_graph" [] []
      ⟨some "665544332211", some "mock_graph"⟩ rfl (by simp) rfl rfl⟩

/-- Counterexample to claim C7 as stated: a successful Security Hub
enrollment issues its one invite-members call, and that call does not disable
email notification — the request it sends carries only the account IDs (the
Security Hub invite request has no email-notification switch). -/
theorem inviteMembers_email_cex :
    (SH.setUpSecurityHubMaster shEnvRun "112233445566" "email@example.com").2.filter
        SHCall.isInvite = [SHCall.inviteMembers ["112233445566"]] ∧
    SHCall.disablesEmailNotification (SHCall.inviteMembers ["112233445566"]) = false :=
  ⟨by decide, rfl⟩

/-- Claim C7, amended: every invite-members call sent by the GuardDuty
Enroller disables email notification (`DisableEmailNotification` set true);
the Security Hub Enroller's invite-members calls do not — their request
carries no email-notification field. -/
theorem inviteMembers_email_amended :
    (∀ (env : GDEnv) (d : Option String) (a e : String) (c : GDCall),
      c ∈ (GDv2.setUpGuardDutyMaster env d a e).2 → c.isInvite = true →
        c.disablesEmailNotification = true) ∧
    (∀ (env : SHEnv) (a e : String) (c : SHCall),
      c ∈ (SH.setUpSecurityHubMaster env a e).2 → c.isInvite = true →
        c.disablesEmailNotification = false) := by
  constructor
  · intro env d a e c hc hinv
    rcases hcm : env.createMembers with _ | er
    · rcases him : env.inviteMembers with _ | er2
      · simp [GDv2.setUpGuardDutyMaster, hcm, him] at hc
        rcases hc with rfl | rfl
        · simp [GDCall.isInvite] at hinv
        · rfl
      · simp [GDv2.setUpGuardDutyMaster, hcm, him] at hc
        rcases hc with rfl | rfl
        · simp [GDCall.isInvite] at hinv
        · rfl
    · simp [GDv2.setUpGuardDutyMaster, hcm] at hc
      subst hc
      simp [GDCall.isInvite] at hinv
  · intro env a e c _ _
    cases c <;> rfl

/-- Witness for C7 (amended): the concrete invite calls either Enroller
sends. -/
theorem inviteMembers_email_amended_witness :
    GDCall.disablesEmailNotification
        (GDCall.inviteMembers (some "mock_detector") ["112233445566"] (some true)) =
      true ∧
    SHCall.disablesEmailNotification (SHCall.inviteMembers ["112233445566"]) = false :=
  ⟨inviteMembers_email_amended.1 gdEnvRun (some "mock_detector") "112233445566"
      "email@example.com"
      (GDCall.inviteMembers (some "mock_detector") ["112233445566"] (some true))
      (by decide) rfl,
    inviteMembers_email_amended.2 shEnvRun "112233445566" "email@example.com"
      (SHCall.inviteMembers ["112233445566"]) (by decide) rfl⟩

/-- Claim C10: the Probers dereference the sole returned record's status and
the Acceptors dereference each scanned invitation's account ID without nil
checks: a successful get-members response with one status-less record, or an
invitation without account ID reached before the first match, makes the
operation panic (a distinguished `panicked` outcome, not an `ok` and not an
`err` return). -/
theorem nil_field_dereference_panics :
    (∀ (env : GDEnv) (d : Option String) (a : String) (mem : GDMember),
      env.getMembers = .ok [mem] → mem.relationshipStatus = none →
        (GDv2.ifGuardDutyMemberAlreadyEnabled env d a).1 = .panicked) ∧
    (∀ (env : DetEnv) (g : Option String) (a : String) (mem : DetMember),
      env.getMembers = .ok [mem] → mem.status = none →
        (Det.ifDetectiveMemberAlreadyEnabled env g a).1 = .panicked) ∧
    (∀ (env : SHEnv) (m : String) (pre post : List SHInvitation) (inv : SHInvitation),
      env.listInvitations = .ok (pre ++ inv :: post) →
      (∀ j ∈ pre, j.accountId.isSome ∧ j.accountId ≠ some m) →
      inv.accountId = none →
        (SH.acceptSecurityHubMemberInvitation env m).1 = .panicked) ∧
    (∀ (env : DetEnv) (m : String) (pre post : List DetInvitation)
      (inv : DetInvitation),
      env.listInvitations = .ok (pre ++ inv :: post) →
      (∀ j ∈ pre, j.accountId.isSome ∧ j.accountId ≠ some m) →
      inv.accountId = none →
        (Det.acceptDetectiveMemberInvitation env m).1 = .panicked) := by
  refine ⟨?_, ?_, ?_, ?_⟩
  · intro env d a mem h1 h2
    simp [GDv2.ifGuardDutyMemberAlreadyEnabled, h1, h2]
  · intro env g a mem h1 h2
    simp [Det.ifDetectiveMemberAlreadyEnabled, h1, h2]
  · intro env m pre post inv h1 h2 h3
    have hfind : SH.findInvitationID (pre ++ inv :: post) m = .panicked := by
      rw [sh_find_skip m pre h2]
      simp [SH.findInvitationID, h3]
    simp [SH.acceptSecurityHubMemberInvitation, h1, hfind]
  · intro env m pre post inv h1 h2 h3
    have hfind : Det.findGraphArn (pre ++ inv :: post) m = .panicked := by
      rw [det_find_skip m pre h2]
      simp [Det.findGraphArn, h3]
    simp [Det.acceptDetectiveMemberInvitation, h1, hfind]

/-- Witness for C10: concrete nil-status and nil-account-ID inputs. -/
theorem nil_field_dereference_panics_witness :
    (GDv2.ifGuardDutyMemberAlreadyEnabled gdEnvNilStatus (some "mock_detector")
        "112233445566").1 = .panicked ∧
    (Det.ifDetectiveMemberAlreadyEnabled detEnvNilStatus (some "mock_graph")
        "112233445566").1 = .panicked ∧
    (SH.acceptSecurityHubMemberInvitation shEnvNilInvAccount "665544332211").1 =
      .panicked ∧
    (Det.acceptDetectiveMemberInvitation
        { detEnvRun with listInvitations := .ok [⟨none, some "mock_graph"⟩] }
        "665544332211").1 = .panicked :=
  ⟨nil_field_dereference_panics.1 gdEnvNilStatus (some "mock_detector") "112233445566"
      ⟨none⟩ rfl rfl,
    nil_field_dereference_panics.2.1 detEnvNilStatus (some "mock_graph") "112233445566"
      ⟨none⟩ rfl rfl,
    nil_field_dereference_panics.2.2.1 shEnvNilInvAccount "665544332211" [] []
      ⟨none, some "mock_invitation"⟩ rfl (by simp) rfl,
    nil_field_dereference_panics.2.2.2
      { detEnvRun with listInvitations := .ok [⟨none, some "mock_graph"⟩] }
      "665544332211" [] [] ⟨none, some "mock_graph"⟩ rfl (by simp) rfl⟩

/-- Claim C8: in a run of `AddAWSAccount` whose remote calls succeed and
decode, a POST is issued exactly when no listed account carries the given
accountID, the created record's name being the accountID when the provided
name is empty and the provided name otherwise; when the account is listed,
the full record is fetched, the desired name falls back to the existing name
when the provided name is empty, and a PUT of the merged record is issued
exactly when it differs field-by-field from the existing one; no run issues
both a POST and a PUT. -/
theorem addAWSAccount_create_or_update :
    (∀ (env : PrismaEnv) (aID nm eID rN : String)
      (accounts : List prismaCloudAccount),
      env.listAccounts = .ok accounts →
      (∀ acc ∈ accounts, acc.accountId ≠ aID) →
      env.postAccount = none →
        Prisma.AddAWSAccount env aID nm eID rN =
          (.ok (), [PrismaCall.get "/cloud",
            PrismaCall.post "/cloud/aws/"
              { name := if nm = "" then aID else nm
                enabled := true
                externalID := eID
                roleArn := Prisma.buildRoleARN aID rN
                accountID := aID }])) ∧
    (∀ (env : PrismaEnv) (aID nm eID rN : String)
      (accounts : List prismaCloudAccount) (old : awsAccountInfo),
      env.listAccounts = .ok accounts →
      (∃ acc ∈ accounts, acc.accountId = aID) →
      env.getAccount = .ok old →
      ({ name := if nm = "" then old.name else nm
         enabled := true
         externalID := eID
         roleArn := Prisma.buildRoleARN aID rN
         accountID := aID } : awsAccountInfo) = old →
        Prisma.AddAWSAccount env aID nm eID rN =
          (.ok (), [PrismaCall.get "/cloud", PrismaCall.get ("/cloud/aws/" ++ aID)])) ∧
    (∀ (env : PrismaEnv) (aID nm eID rN : String)
      (accounts : List prismaCloudAccount) (old : awsAccountInfo),
      env.listAccounts = .ok accounts →
      (∃ acc ∈ accounts, acc.accountId = aID) →
      env.getAccount = .ok old →
      ({ name := if nm = "" then old.name else nm
         enabled := true
         externalID := eID
         roleArn := Prisma.buildRoleARN aID rN
         accountID := aID } : awsAccountInfo) ≠ old →
      env.putAccount = none →
        Prisma.AddAWSAccount env aID nm eID rN =
          (.ok (), [PrismaCall.get "/cloud", PrismaCall.get ("/cloud/aws/" ++ aID),
            PrismaCall.put ("/cloud/aws/" ++ aID)
              { name := if nm = "" then old.name else nm
                enabled := true
                externalID := eID
                roleArn := Prisma.buildRoleARN aID rN
                accountID := aID }])) ∧
    (∀ (env : PrismaEnv) (aID nm eID rN : String),
      ¬((Prisma.AddAWSAccount env aID nm eID rN).2.any PrismaCall.isPost = true ∧
        (Prisma.AddAWSAccount env aID nm eID rN).2.any PrismaCall.isPut = true)) := by
  refine ⟨?_, ?_, ?_, ?_⟩
  · intro env aID nm eID rN accounts h1 h2 h3
    have hany : accounts.any (fun acc => acc.accountId == aID) = false := by
      simp only [List.any_eq_false]
      intro acc hacc
      simpa using h2 acc hacc
    by_cases hnm : nm = "" <;>
      simp [Prisma.AddAWSAccount, Prisma.ifAWSAccountExists, h1, hany,
        Prisma.createNewAWSAccount, h3, hnm]
  · intro env aID nm eID rN accounts old h1 h2 h3 h4
    have hany : accounts.any (fun acc => acc.accountId == aID) = true := by
      rcases h2 with ⟨acc, hmem, heq⟩
      exact List.any_eq_true.mpr ⟨acc, hmem, by simpa using heq⟩
    by_cases hnm : nm = ""
    · subst hnm
      rw [if_pos rfl] at h4
      have hne : ¬(old ≠
          ({ name := old.name
             enabled := true
             externalID := eID
             roleArn := Prisma.buildRoleARN aID rN
             accountID := aID } : awsAccountInfo)) := fun h => h h4.symm
      simp [Prisma.AddAWSAccount, Prisma.ifAWSAccountExists, h1, hany,
        Prisma.updateExistingAWSAccount, h3, hne]
    · rw [if_neg hnm] at h4
      have hne : ¬(old ≠
          ({ name := nm
             enabled := true
             externalID := eID
             roleArn := Prisma.buildRoleARN aID rN
             accountID := aID } : awsAccountInfo)) := fun h => h h4.symm
      simp [Prisma.AddAWSAccount, Prisma.ifAWSAccountExists, h1, hany,
        Prisma.updateExistingAWSAccount, h3, hnm, hne]
  · intro env aID nm eID rN accounts old h1 h2 h3 h4 h5
    have hany : accounts.any (fun acc => acc.accountId == aID) = true := by
      rcases h2 with ⟨acc, hmem, heq⟩
      exact List.any_eq_true.mpr ⟨acc, hmem, by simpa using heq⟩
    by_cases hnm : nm = ""
    · subst hnm
      rw [if_pos rfl] at h4
      rw [if_pos rfl]
      have hne : old ≠
          ({ name := old.name
             enabled := true
             externalID := eID
             roleArn := Prisma.buildRoleARN aID rN
             accountID := aID } : awsAccountInfo) := fun h => h4 h.symm
      simp [Prisma.AddAWSAccount, Prisma.ifAWSAccountExists, h1, hany,
        Prisma.updateExistingAWSAccount, h3, h5, hne]
    · rw [if_neg hnm] at h4
      rw [if_neg hnm]
      have hne : old ≠
          ({ name := nm
             enabled := true
             externalID := eID
             roleArn := Prisma.buildRoleARN aID rN
             accountID := aID } : awsAccountInfo) := fun h => h4 h.symm
      simp [Prisma.AddAWSAccount, Prisma.ifAWSAccountExists, h1, hany,
        Prisma.updateExistingAWSAccount, h3, h5, hnm, hne]
  · intro env aID nm eID rN
    rcases hl : env.listAccounts with e | e | accounts
    · simp [Prisma.AddAWSAccount, Prisma.ifAWSAccountExists, hl, PrismaCall.isPost]
    · simp [Prisma.AddAWSAccount, Prisma.ifAWSAccountExists, hl, PrismaCall.isPost]
    · rcases hb : accounts.any (fun acc => acc.accountId == aID) with _ | _
      · rcases hc : Prisma.createNewAWSAccount env
            { name := nm
              enabled := true
              externalID := eID
              roleArn := Prisma.buildRoleARN aID rN
              accountID := aID } with ⟨r, t2⟩
        have hnp := prisma_create_no_put env
            { name := nm
              enabled := true
              externalID := eID
              roleArn := Prisma.buildRoleARN aID rN
              accountID := aID }
        rw [hc] at hnp
        rintro ⟨hpost, hput⟩
        rcases r with e | u <;>
          simp [Prisma.AddAWSAccount, Prisma.ifAWSAccountExists, hl, hb, hc,
            PrismaCall.isPut, hnp] at hput
      · rcases hc : Prisma.updateExistingAWSAccount env
            { name := nm
              enabled := true
              externalID := eID
              roleArn := Prisma.buildRoleARN aID rN
              accountID := aID } with ⟨r, t2⟩
        have hnp := prisma_update_no_post env
            { name := nm
              enabled := true
              externalID := eID
              roleArn := Prisma.buildRoleARN aID rN
              accountID := aID }
        rw [hc] at hnp
        rintro ⟨hpost, hput⟩
        rcases r with e | u <;>
          simp [Prisma.AddAWSAccount, Prisma.ifAWSAccountExists, hl, hb, hc,
            PrismaCall.isPost, hnp] at hpost

/-- Witness for C8: a concrete create, an up-to-date no-op and a stale
update. -/
theorem addAWSAccount_create_or_update_witness :
    Prisma.AddAWSAccount prEnvAbsent "011223344556" "" "test_external_id"
        "test_role_name" =
      (.ok (), [PrismaCall.get "/cloud",
        PrismaCall.post "/cloud/aws/"
          { name := "011223344556"
            enabled := true
            externalID := "test_external_id"
            roleArn := "arn:aws:iam::011223344556:role/test_role_name"
            accountID := "011223344556" }]) ∧
    Prisma.AddAWSAccount prEnvEqual "011223344556" "" "test_external_id"
        "test_role_name" =
      (.ok (), [PrismaCall.get "/cloud", PrismaCall.get "/cloud/aws/011223344556"]) ∧
    Prisma.AddAWSAccount prEnvStale "011223344556" "" "test_external_id"
        "test_role_name" =
      (.ok (), [PrismaCall.get "/cloud", PrismaCall.get "/cloud/aws/011223344556",
        PrismaCall.put "/cloud/aws/011223344556"
          { name := "existing"
            enabled := true
            externalID := "test_external_id"
            roleArn := "arn:aws:iam::011223344556:role/test_role_name"
            accountID := "011223344556" }]) := by
  refine ⟨?_, ?_, ?_⟩
  · have h := addAWSAccount_create_or_update.1 prEnvAbsent "011223344556" ""
      "test_external_id" "test_role_name" [] rfl (by simp) rfl
    simpa [Prisma.buildRoleARN] using h
  · have h := addAWSAccount_create_or_update.2.1 prEnvEqual "011223344556" ""
      "test_external_id" "test_role_name" [⟨"011223344556"⟩]
      { name := "existing"
        enabled := true
        externalID := "test_external_id"
        roleArn := "arn:aws:iam::011223344556:role/test_role_name"
        accountID := "011223344556" }
      rfl ⟨⟨"011223344556"⟩, by simp⟩ rfl (by decide)
    simpa using h
  · have h := addAWSAccount_create_or_update.2.2.1 prEnvStale "011223344556" ""
      "test_external_id" "test_role_name" [⟨"011223344556"⟩]
      { name := "existing"
        enabled := false
        externalID := "test_external_id"
        roleArn := "arn:aws:iam::011223344556:role/test_role_name"
        accountID := "011223344556" }
      rfl ⟨⟨"011223344556"⟩, by simp⟩ rfl (by decide) rfl
    simpa [Prisma.buildRoleARN] using h

/-- Claim C9: the two GuardDuty snapshots in the source — `guardduty.go`
(AcceptInvitation, MasterId) and the newer one
(AcceptAdministratorInvitation, AdministratorId) — behave identically on
every scripted run: equal outcomes including identical error-message strings,
and the same calls with the same arguments in the same order under the
correspondence `gdCorr`. -/
theorem guardduty_snapshots_equivalent (env : GDEnv)
    (accountID accountEmail masterAccountID : String) :
    (GDv1.AddMember env accountID accountEmail masterAccountID).1 =
      (GDv2.AddMember env accountID accountEmail masterAccountID).1 ∧
    (GDv2.AddMember env accountID accountEmail masterAccountID).2 =
      (GDv1.AddMember env accountID accountEmail masterAccountID).2.map gdCorr := by
  have h := gd_addMember_corr env accountID accountEmail masterAccountID
  constructor
  · rw [h]
  · rw [h]
